import Mathlib

/-!
Verification development for the climate risk assessment engine
(src/climate_risk_processor_v4_cloud.py and src/app.py).

Modelling conventions:
* All numbers are exact rationals.  The source performs IEEE float
  arithmetic; the claims under study are about algebraic structure
  (branching, aggregation, monotonicity), which the rational model
  mirrors faithfully.
* Two irrational-valued primitives of the source are abstracted as
  explicit function parameters: the square root used by the hurricane
  wind-decay expression (written as a power of 0.5 in the source) and
  the haversine great-circle distance (built from trigonometric
  functions).  They appear as parameters named sqrtQ and dist.
  Theorems that depend on their analytic properties take those
  properties (monotonicity, value at zero) as hypotheses, which the
  real functions satisfy.
* Python dicts iterated by insertion order are modelled as association
  lists in the same order; the free-text details field of result dicts
  is not modelled.
-/

namespace ClimateRisk

/-- Model of Python's builtin round on rationals: round half to even
(Python 3 uses banker's rounding).  Used by the flood lookup
quantization. -/
def pyround (x : ℚ) : ℤ :=
  let f := ⌊x⌋
  let frac := x - f
  if frac < 1/2 then f
  else if 1/2 < frac then f + 1
  else if f % 2 = 0 then f else f + 1

/-- Wood-frame branch of wind_to_damage_hazus. -/
def wf_damage (wind_mph : ℚ) : ℚ :=
  if wind_mph < 74 then 0
  else if wind_mph < 95 then 0.05 + (wind_mph - 74) * 0.0048
  else if wind_mph < 110 then 0.15 + (wind_mph - 95) * 0.0100
  else if wind_mph < 130 then 0.30 + (wind_mph - 110) * 0.0100
  else if wind_mph < 157 then 0.50 + (wind_mph - 130) * 0.0111
  else min (0.80 + (wind_mph - 157) * 0.0050) 1.0

/-- Concrete branch of wind_to_damage_hazus. -/
def concrete_damage (wind_mph : ℚ) : ℚ :=
  if wind_mph < 74 then 0
  else if wind_mph < 95 then 0.02 + (wind_mph - 74) * 0.0014
  else if wind_mph < 110 then 0.05 + (wind_mph - 95) * 0.0033
  else if wind_mph < 130 then 0.10 + (wind_mph - 110) * 0.0050
  else if wind_mph < 157 then 0.20 + (wind_mph - 130) * 0.0074
  else min (0.40 + (wind_mph - 157) * 0.0075) 0.70

/-- wind_to_damage_hazus.  The source's final branch calls itself with
building type wood_frame, which immediately reduces to the wood-frame
branch; that recursion is unrolled here. -/
def wind_to_damage_hazus (wind_mph : ℚ) (building_type : String) : ℚ :=
  if building_type = "wood_frame" then wf_damage wind_mph
  else if building_type = "concrete" then concrete_damage wind_mph
  else wf_damage wind_mph

/-- Residential control points of flood_depth_to_damage_hazus. -/
def residentialCurve : List (ℚ × ℚ) :=
  [(0, 0), (0.3, 0.10), (1, 0.20), (2, 0.40), (3, 0.60), (4, 0.75), (5, 0.85)]

/-- Commercial control points of flood_depth_to_damage_hazus. -/
def commercialCurve : List (ℚ × ℚ) :=
  [(0, 0), (0.3, 0.15), (1, 0.35), (2, 0.55), (3, 0.70), (4, 0.80), (5, 0.90)]

/-- Industrial control points of flood_depth_to_damage_hazus. -/
def industrialCurve : List (ℚ × ℚ) :=
  [(0, 0), (0.3, 0.08), (1, 0.18), (2, 0.35), (3, 0.50), (4, 0.65), (5, 0.75)]

/-- The source's scan over consecutive control-point pairs: return the
linear interpolation of the first bracketing segment, if any. -/
def scanPairs : List (ℚ × ℚ) → ℚ → Option ℚ
  | p1 :: p2 :: rest, d =>
    if p1.1 ≤ d ∧ d ≤ p2.1 then
      some (p1.2 + (d - p1.1) / (p2.1 - p1.1) * (p2.2 - p1.2))
    else scanPairs (p2 :: rest) d
  | _, _ => none

/-- flood_depth_to_damage_hazus. -/
def flood_depth_to_damage_hazus (depth_m : ℚ) (building_type : String) : ℚ :=
  let curve :=
    if building_type = "residential" then residentialCurve
    else if building_type = "commercial" then commercialCurve
    else if building_type = "industrial" then industrialCurve
    else residentialCurve
  match scanPairs curve depth_m with
  | some v => v
  | none =>
    if depth_m ≥ (curve.getLastD (0, 0)).1 then (curve.getLastD (0, 0)).2 else 0

/-- The flood lookup JSON: a dict from "lat,lon" keys (0.5 degree grid,
canonically formatted) to depths, modelled as an association list of
((lat, lon), depth) in dict insertion order. -/
abbrev FloodTable := List ((ℚ × ℚ) × ℚ)

/-- Is dsq strictly smaller than the best squared distance so far?
(none models the initial infinity of the source's scan). -/
def closer (dsq : Option ℚ) (d : ℚ) : Bool :=
  match dsq with
  | none => true
  | some m => decide (d < m)

/-- query_flood_depth.  The source compares Euclidean-in-degrees
distances obtained as the square root of a sum of squares; square root
is strictly monotone on nonnegatives, so every comparison of the source
(distance below 2, distance below current minimum) is carried out here
on squared distances, preserving each branch exactly. -/
def query_flood_depth (table : FloodTable) (lat lon : ℚ) : ℚ :=
  let lat_round : ℚ := (pyround (lat * 2) : ℚ) / 2
  let lon_round : ℚ := (pyround (lon * 2) : ℚ) / 2
  match table.find? (fun e => decide (e.1.1 = lat_round ∧ e.1.2 = lon_round)) with
  | some e => e.2
  | none =>
    (table.foldl (fun acc e =>
      let dsq := (lat - e.1.1) ^ 2 + (lon - e.1.2) ^ 2
      if dsq < 4 ∧ closer acc.1 dsq then (some dsq, e.2) else acc)
      ((none : Option ℚ), 0)).2

/-- One hurricane track observation: a row of the track csv after
numeric coercion (SID, LAT, LON, USA_WIND).  The ISO_TIME column is
read by the source but never used in any computation; it is kept here
as a year field. -/
structure StormObs where
  sid : String
  lat : ℚ
  lon : ℚ
  wind : ℚ
  year : ℤ
deriving DecidableEq

/-- Wind decay-with-distance factor of calculate_hurricane_risk:
max(0, (1 - d/200) ** 0.5), with the square root abstracted. -/
def decayFactor (sqrtQ : ℚ → ℚ) (d : ℚ) : ℚ :=
  max 0 (sqrtQ (1 - d / 200))

/-- Effective wind in mph after decay: wind_kt * decay * 1.15078. -/
def effWindMph (sqrtQ : ℚ → ℚ) (d wind_kt : ℚ) : ℚ :=
  wind_kt * decayFactor sqrtQ d * 1.15078

/-- storm_max_damage[sid] = max(storm_max_damage[sid], v) on a
defaultdict(float): a missing key reads as 0.0 before the max. -/
def updateMax : List (String × ℚ) → String → ℚ → List (String × ℚ)
  | [], sid, v => [(sid, max 0 v)]
  | (k, w) :: rest, sid, v =>
    if k = sid then (k, max w v) :: rest else (k, w) :: updateMax rest sid v

/-- Body of the per-observation loop of calculate_hurricane_risk. -/
def hurricaneStep (dist : ℚ → ℚ → ℚ → ℚ → ℚ) (sqrtQ : ℚ → ℚ) (qlat qlon : ℚ)
    (building_type : String) (m : List (String × ℚ)) (obs : StormObs) :
    List (String × ℚ) :=
  let d := dist qlat qlon obs.lat obs.lon
  if d > 200 then m
  else
    let eff := effWindMph sqrtQ d obs.wind
    if eff < 74 then m
    else updateMax m obs.sid (wind_to_damage_hazus eff building_type)

/-- The storm_max_damage table after streaming the whole track record
(chunking in the source only batches rows; iteration order over
observations is unchanged). -/
def stormMaxDamage (dist : ℚ → ℚ → ℚ → ℚ → ℚ) (sqrtQ : ℚ → ℚ) (qlat qlon : ℚ)
    (building_type : String) (track : List StormObs) : List (String × ℚ) :=
  track.foldl (hurricaneStep dist sqrtQ qlat qlon building_type) []

/-- Confidence tags of the hazard estimate dicts. -/
inductive Confidence where
  | high
  | medium
  | lowRisk
  | regionalBaseline
  | insufficientData
  | noData
  | err
deriving DecidableEq

/-- One hazard estimator result.  Some source branches omit the
annual_loss_pct key, hence the Option; every branch carries
annual_loss.  The free-text details key is not modelled. -/
structure HazardEstimate where
  annual_loss : ℚ
  annual_loss_pct : Option ℚ
  confidence : Confidence
deriving DecidableEq

/-- One regional baseline record: a lat/lon bounding box with fixed
cdd, txx and rx5day values. -/
structure RegionBaseline where
  lat_lo : ℚ
  lat_hi : ℚ
  lon_lo : ℚ
  lon_hi : ℚ
  cdd : ℚ
  txx : ℚ
  rx5day : ℚ
deriving DecidableEq

/-- The regional baselines dict of _init_regional_baselines, in
insertion order: midwest, southwest, southeast, northeast, europe
central, mediterranean, asia south, asia east, sahel, equatorial
africa, amazon, temperate south america, australia interior, australia
coastal. -/
def regional_baselines : List RegionBaseline :=
  [⟨35, 50, -105, -85, 110, 38, 90⟩,
   ⟨25, 40, -125, -105, 180, 42, 40⟩,
   ⟨25, 40, -95, -75, 90, 36, 150⟩,
   ⟨40, 50, -85, -65, 60, 32, 100⟩,
   ⟨45, 55, -5, 25, 50, 30, 80⟩,
   ⟨35, 45, -10, 30, 120, 38, 70⟩,
   ⟨5, 30, 65, 100, 100, 42, 200⟩,
   ⟨25, 45, 100, 145, 80, 36, 150⟩,
   ⟨10, 20, -20, 40, 200, 44, 80⟩,
   ⟨-10, 10, -20, 50, 60, 34, 180⟩,
   ⟨-15, 5, -80, -45, 50, 35, 200⟩,
   ⟨-40, -20, -75, -45, 80, 32, 100⟩,
   ⟨-35, -15, 115, 145, 220, 45, 50⟩,
   ⟨-40, -25, 140, 155, 100, 38, 120⟩]

/-- index_map of get_regional_baseline. -/
def baselineKey (index_name : String) : Option String :=
  if index_name = "cdd" then some "cdd"
  else if index_name = "txx" then some "txx"
  else if index_name = "rx5day" then some "rx5day"
  else if index_name = "tr" then some "txx"
  else if index_name = "su" then some "txx"
  else if index_name = "wsdi" then some "txx"
  else if index_name = "rx1day" then some "rx5day"
  else none

/-- region_data.get(baseline_key). -/
def regionValue (r : RegionBaseline) (key : String) : Option ℚ :=
  if key = "cdd" then some r.cdd
  else if key = "txx" then some r.txx
  else if key = "rx5day" then some r.rx5day
  else none

/-- get_regional_baseline: first bounding box containing the point, in
dict order, else the global defaults. -/
def get_regional_baseline (lat lon : ℚ) (index_name : String) : Option ℚ :=
  match baselineKey index_name with
  | none => none
  | some k =>
    match regional_baselines.find? (fun r =>
        decide (r.lat_lo ≤ lat ∧ lat ≤ r.lat_hi ∧ r.lon_lo ≤ lon ∧ lon ≤ r.lon_hi)) with
    | some r => regionValue r k
    | none =>
      if k = "cdd" then some 80
      else if k = "txx" then some 35
      else if k = "rx5day" then some 100
      else none

/-- One gridded HadEX3-style dataset: coordinate arrays and one 3-D
(time, lat, lon) data variable.  A none entry models a masked or NaN
sample.  Indices produced by the nearest-grid-point search are in
range for well-formed data, so the source's dead transposed-index
retry on IndexError is not modelled. -/
structure HadDataset where
  lats : List ℚ
  lons : List ℚ
  nt : ℕ
  val : ℕ → ℕ → ℕ → Option ℚ

/-- Tail of the first-minimum scan: numpy argmin keeps the first index
attaining the minimum. -/
def argminAux : List ℚ → ℕ → ℕ → ℚ → ℕ
  | [], _, best, _ => best
  | v :: rest, idx, best, bestv =>
    if v < bestv then argminAux rest (idx + 1) idx v
    else argminAux rest (idx + 1) best bestv

/-- find_nearest_grid_point for one axis: first index of minimal
absolute difference. -/
def argminAbsIdx (xs : List ℚ) (x : ℚ) : ℕ :=
  match xs.map (fun v => |v - x|) with
  | [] => 0
  | v :: rest => argminAux rest 1 0 v

/-- Number of unmasked samples of a series. -/
def countValid (ts : List (Option ℚ)) : ℕ :=
  (ts.filterMap id).length

/-- One accepted neighbor of interpolate_from_neighbors. -/
structure Neighbor where
  data : List (Option ℚ)
  distance : ℚ
  weight : ℚ

/-- The valid_neighbors list of interpolate_from_neighbors: the 8
grid-adjacent cells that are in bounds and at least 50 percent valid,
with distance weight 1/(d+1). -/
def validNeighbors (dist : ℚ → ℚ → ℚ → ℚ → ℚ) (ds : HadDataset) (lat lon : ℚ)
    (li lj : ℕ) : List Neighbor :=
  let offsets : List (ℤ × ℤ) :=
    [(-1, 0), (1, 0), (0, -1), (0, 1), (-1, -1), (-1, 1), (1, -1), (1, 1)]
  offsets.filterMap (fun off =>
    let ni : ℤ := (li : ℤ) + off.1
    let nj : ℤ := (lj : ℤ) + off.2
    if 0 ≤ ni ∧ ni < (ds.lats.length : ℤ) ∧ 0 ≤ nj ∧ nj < (ds.lons.length : ℤ) then
      let ndata := (List.range ds.nt).map (fun t => ds.val t ni.toNat nj.toNat)
      if ndata.length ≠ 0 ∧ 2 * countValid ndata ≥ ndata.length then
        let d := dist lat lon (ds.lats.getD ni.toNat 0) (ds.lons.getD nj.toNat 0)
        some ⟨ndata, d, 1 / (d + 1)⟩
      else none
    else none)

/-- interpolate_from_neighbors: per time index, the distance-weighted
average over neighbors with a valid sample above the -900 sentinel; a
time index with zero weight stays missing.  Requires at least 3 valid
neighbors.  All neighbor series share length nt, so the per-index
access cannot go out of range. -/
def interpolate_from_neighbors (dist : ℚ → ℚ → ℚ → ℚ → ℚ) (ds : HadDataset)
    (lat lon : ℚ) (li lj : ℕ) : Option (List (Option ℚ)) :=
  let vns := validNeighbors dist ds lat lon li lj
  if vns.length < 3 then none
  else
    let data_length := (vns.headD ⟨[], 0, 0⟩).data.length
    some ((List.range data_length).map (fun i =>
      let contrib := vns.filterMap (fun n =>
        match n.data.getD i none with
        | none => none
        | some v => if v < -900 then none else some (v, n.weight))
      let wsum := (contrib.map (fun p => p.2)).sum
      if wsum > 0 then some ((contrib.map (fun p => p.1 * p.2)).sum / wsum)
      else none))

/-- The loaded engine state: abstracted irrational primitives plus the
data loaded at construction (hurricane track record if present, flood
lookup, HadEX3 datasets by index name in load order). -/
structure Processor where
  dist : ℚ → ℚ → ℚ → ℚ → ℚ
  sqrtQ : ℚ → ℚ
  hurricane_data : Option (List StormObs)
  flood_lookup : FloodTable
  hadex3_data : List (String × HadDataset)

/-- self.hadex3_data[index_name] lookup. -/
def lookupIndex (proc : Processor) (index_name : String) : Option HadDataset :=
  (proc.hadex3_data.find? (fun p => decide (p.1 = index_name))).map (fun p => p.2)

/-- extract_hadex3_timeseries: nearest-cell series if at least half its
samples are valid, else the 8-neighbor interpolation, else none.  The
source's valid ratio on an empty series is a NaN that fails the 0.5
comparison, modelled by the explicit nonzero-length conjunct. -/
def extract_hadex3_timeseries (proc : Processor) (index_name : String)
    (lat lon : ℚ) : Option (List (Option ℚ)) :=
  match lookupIndex proc index_name with
  | none => none
  | some ds =>
    let li := argminAbsIdx ds.lats lat
    let lj := argminAbsIdx ds.lons lon
    let ts := (List.range ds.nt).map (fun t => ds.val t li lj)
    if ts.length ≠ 0 ∧ 2 * countValid ts ≥ ts.length then some ts
    else interpolate_from_neighbors proc.dist ds lat lon li lj

/-- calculate_hurricane_risk. -/
def calculate_hurricane_risk (proc : Processor) (lat lon asset_value : ℚ)
    (building_type : String) : HazardEstimate :=
  match proc.hurricane_data with
  | none => ⟨0, none, Confidence.noData⟩
  | some track =>
    let m := stormMaxDamage proc.dist proc.sqrtQ lat lon building_type track
    let num := m.length
    if num = 0 then ⟨0, some 0, Confidence.lowRisk⟩
    else
      let avg := (m.map Prod.snd).sum / (num : ℚ)
      let annual_frequency := (num : ℚ) / 50
      let expected := annual_frequency * avg * asset_value
      let calibrated := expected * 0.22
      ⟨calibrated, some (calibrated / asset_value * 100),
        if 5 ≤ num then Confidence.high else Confidence.medium⟩

/-- calculate_flood_risk. -/
def calculate_flood_risk (proc : Processor) (lat lon asset_value : ℚ)
    (building_type : String) : HazardEstimate :=
  let flood_depth := query_flood_depth proc.flood_lookup lat lon
  if flood_depth ≤ 0 then ⟨0, some 0, Confidence.lowRisk⟩
  else
    let dr := flood_depth_to_damage_hazus flood_depth building_type
    let expected := 0.01 * dr * asset_value
    let calibrated := expected * 0.8
    ⟨calibrated, some (calibrated / asset_value * 100), Confidence.high⟩

/-- Heat stress damage function (inline in the source). -/
def heatDamage (avg_max_temp : ℚ) : ℚ :=
  if avg_max_temp < 30 then 0
  else if avg_max_temp < 35 then 0.001 + (avg_max_temp - 30) * 0.0002
  else if avg_max_temp < 40 then 0.002 + (avg_max_temp - 35) * 0.0004
  else if avg_max_temp < 45 then 0.004 + (avg_max_temp - 40) * 0.0008
  else 0.008 + (avg_max_temp - 45) * 0.0012

/-- Final assembly of the heat estimate from the average temperature
and the confidence tag (calibration factor 0.5). -/
def heatFinish (avg asset_value : ℚ) (conf : Confidence) : HazardEstimate :=
  let dr := heatDamage avg
  let expected := dr * asset_value
  let calibrated := expected * 0.5
  ⟨calibrated, some (calibrated / asset_value * 100), conf⟩

/-- calculate_heat_stress_risk.  The tr, su and wsdi series are
extracted by the source and never used. -/
def calculate_heat_stress_risk (proc : Processor) (lat lon asset_value : ℚ) :
    HazardEstimate :=
  let txx? := extract_hadex3_timeseries proc "txx" lat lon
  let _tr := extract_hadex3_timeseries proc "tr" lat lon
  let _su := extract_hadex3_timeseries proc "su" lat lon
  let _wsdi := extract_hadex3_timeseries proc "wsdi" lat lon
  match txx? with
  | none => ⟨0, none, Confidence.noData⟩
  | some txx =>
    let txx_valid := (txx.filterMap id).filter (fun v => decide (-90 < v ∧ v < 60))
    if txx_valid.length = 0 then
      match get_regional_baseline lat lon "txx" with
      | none => ⟨0, none, Confidence.insufficientData⟩
      | some b => heatFinish b asset_value Confidence.regionalBaseline
    else
      let recent :=
        if txx_valid.length ≥ 30 then txx_valid.drop (txx_valid.length - 30)
        else txx_valid
      if recent.length = 0 then
        match get_regional_baseline lat lon "txx" with
        | none => ⟨0, none, Confidence.insufficientData⟩
        | some b => heatFinish b asset_value Confidence.regionalBaseline
      else heatFinish (recent.sum / (recent.length : ℚ)) asset_value Confidence.medium

/-- Drought damage function (inline in the source). -/
def droughtDamage (avg_cdd : ℚ) : ℚ :=
  if avg_cdd < 30 then 0
  else if avg_cdd < 60 then 0.0005 + (avg_cdd - 30) * 0.00003
  else if avg_cdd < 90 then 0.0015 + (avg_cdd - 60) * 0.00005
  else 0.003 + (avg_cdd - 90) * 0.00008

/-- Final assembly of the drought estimate (calibration factor 0.6). -/
def droughtFinish (avg asset_value : ℚ) (conf : Confidence) : HazardEstimate :=
  let dr := droughtDamage avg
  let expected := dr * asset_value
  let calibrated := expected * 0.6
  ⟨calibrated, some (calibrated / asset_value * 100), conf⟩

/-- calculate_drought_risk. -/
def calculate_drought_risk (proc : Processor) (lat lon asset_value : ℚ) :
    HazardEstimate :=
  match extract_hadex3_timeseries proc "cdd" lat lon with
  | none => ⟨0, none, Confidence.noData⟩
  | some cdd =>
    let cdd_valid := (cdd.filterMap id).filter (fun v => decide (-90 < v ∧ v < 400))
    if cdd_valid.length = 0 then
      match get_regional_baseline lat lon "cdd" with
      | none => ⟨0, none, Confidence.insufficientData⟩
      | some b => droughtFinish b asset_value Confidence.regionalBaseline
    else
      let recent :=
        if cdd_valid.length ≥ 30 then cdd_valid.drop (cdd_valid.length - 30)
        else cdd_valid
      if recent.length = 0 then
        match get_regional_baseline lat lon "cdd" with
        | none => ⟨0, none, Confidence.insufficientData⟩
        | some b => droughtFinish b asset_value Confidence.regionalBaseline
      else droughtFinish (recent.sum / (recent.length : ℚ)) asset_value Confidence.medium

/-- Extreme precipitation damage function (inline in the source). -/
def precipDamage (avg_rx5 : ℚ) : ℚ :=
  if avg_rx5 < 50 then 0
  else if avg_rx5 < 100 then 0.001 + (avg_rx5 - 50) * 0.00004
  else if avg_rx5 < 200 then 0.003 + (avg_rx5 - 100) * 0.00006
  else 0.009 + (avg_rx5 - 200) * 0.00008

/-- Final assembly of the precipitation estimate (calibration 0.7). -/
def precipFinish (avg asset_value : ℚ) (conf : Confidence) : HazardEstimate :=
  let dr := precipDamage avg
  let expected := dr * asset_value
  let calibrated := expected * 0.7
  ⟨calibrated, some (calibrated / asset_value * 100), conf⟩

/-- calculate_extreme_precipitation_risk. -/
def calculate_extreme_precipitation_risk (proc : Processor)
    (lat lon asset_value : ℚ) : HazardEstimate :=
  match extract_hadex3_timeseries proc "rx5day" lat lon with
  | none => ⟨0, none, Confidence.noData⟩
  | some rx5 =>
    let rx5_valid := (rx5.filterMap id).filter (fun v => decide (-90 < v ∧ v < 1000))
    if rx5_valid.length = 0 then
      match get_regional_baseline lat lon "rx5day" with
      | none => ⟨0, none, Confidence.insufficientData⟩
      | some b => precipFinish b asset_value Confidence.regionalBaseline
    else
      let recent :=
        if rx5_valid.length ≥ 30 then rx5_valid.drop (rx5_valid.length - 30)
        else rx5_valid
      if recent.length = 0 then
        match get_regional_baseline lat lon "rx5day" with
        | none => ⟨0, none, Confidence.insufficientData⟩
        | some b => precipFinish b asset_value Confidence.regionalBaseline
      else precipFinish (recent.sum / (recent.length : ℚ)) asset_value Confidence.medium

/-- The 30-year present value loop of calculate_comprehensive_risk:
years 1..horizon, each year's loss escalated then discounted. -/
def presentValue (total_annual_loss esc disc : ℚ) (horizon : ℕ) : ℚ :=
  (List.range horizon).foldl (fun pv i =>
    pv + total_annual_loss * (1 + esc) ^ (i + 1) / (1 + disc) ^ (i + 1)) 0

/-- The comprehensive assessment record returned by
calculate_comprehensive_risk (risk_breakdown flattened into the five
hazard fields; location and parameters echoed). -/
structure Comprehensive where
  asset_value : ℚ
  expected_annual_loss : ℚ
  expected_annual_loss_pct : ℚ
  present_value_30yr : ℚ
  present_value_30yr_pct : ℚ
  hurricane : HazardEstimate
  flood : HazardEstimate
  heat_stress : HazardEstimate
  drought : HazardEstimate
  extreme_precipitation : HazardEstimate
  latitude : ℚ
  longitude : ℚ
  building_type : String
  time_horizon : ℕ
  discount_rate : ℚ
  climate_escalation : ℚ
deriving DecidableEq

/-- calculate_comprehensive_risk. -/
def calculate_comprehensive_risk (proc : Processor) (lat lon asset_value : ℚ)
    (building_type : String) (time_horizon : ℕ) : Comprehensive :=
  let hurricane := calculate_hurricane_risk proc lat lon asset_value building_type
  let flood := calculate_flood_risk proc lat lon asset_value building_type
  let heat := calculate_heat_stress_risk proc lat lon asset_value
  let drought := calculate_drought_risk proc lat lon asset_value
  let precip := calculate_extreme_precipitation_risk proc lat lon asset_value
  let total_annual_loss := hurricane.annual_loss + flood.annual_loss +
    heat.annual_loss + drought.annual_loss + precip.annual_loss
  let present_value := presentValue total_annual_loss 0.02 0.10 time_horizon
  ⟨asset_value, total_annual_loss, total_annual_loss / asset_value * 100,
   present_value, present_value / asset_value * 100,
   hurricane, flood, heat, drought, precip,
   lat, lon, building_type, time_horizon, 0.10, 0.02⟩

/-- The JSON body of an assessment request (src/app.py), after float
coercion of the numeric fields; a none field was absent from the
request. -/
structure AssessData where
  latitude : Option ℚ
  longitude : Option ℚ
  asset_value : Option ℚ
  building_type : Option String
deriving DecidableEq

/-- The POST /assess handler assess_risk: presence check, range
validation (latitude, longitude, asset value, in that order), then the
comprehensive computation with the default 30-year horizon. -/
def assess_risk (proc : Processor) (data : AssessData) :
    Except String Comprehensive :=
  match data.latitude, data.longitude with
  | some lat, some lon =>
    let asset_value := data.asset_value.getD 1000000
    let building_type := data.building_type.getD "wood_frame"
    if ¬(-90 ≤ lat ∧ lat ≤ 90) then
      Except.error "Latitude must be between -90 and 90"
    else if ¬(-180 ≤ lon ∧ lon ≤ 180) then
      Except.error "Longitude must be between -180 and 180"
    else if asset_value ≤ 0 then
      Except.error "Asset value must be positive"
    else
      Except.ok (calculate_comprehensive_risk proc lat lon asset_value building_type 30)
  | _, _ => Except.error "Missing required parameters: latitude and longitude"

/-- The POST /assess/risk_type handler assess_specific_risk: presence
check, then direct dispatch to one estimator.  No range validation is
performed on this path. -/
def assess_specific_risk (proc : Processor) (risk_type : String)
    (data : AssessData) : Except String HazardEstimate :=
  match data.latitude, data.longitude with
  | some lat, some lon =>
    let asset_value := data.asset_value.getD 1000000
    let building_type := data.building_type.getD "wood_frame"
    if risk_type = "hurricane" then
      Except.ok (calculate_hurricane_risk proc lat lon asset_value building_type)
    else if risk_type = "flood" then
      Except.ok (calculate_flood_risk proc lat lon asset_value building_type)
    else if risk_type = "heat" then
      Except.ok (calculate_heat_stress_risk proc lat lon asset_value)
    else if risk_type = "drought" then
      Except.ok (calculate_drought_risk proc lat lon asset_value)
    else if risk_type = "precipitation" then
      Except.ok (calculate_extreme_precipitation_risk proc lat lon asset_value)
    else Except.error ("Unknown risk type: " ++ risk_type)
  | _, _ => Except.error "Missing required parameters: latitude and longitude"

/-!  Concrete engine states used by witnesses and counterexamples. -/

/-- An engine with no hurricane record, no flood entries and no
gridded data. -/
def procEmpty : Processor := ⟨fun _ _ _ _ => 0, id, none, [], []⟩

/-- A one-observation hurricane record: one storm, year 2000, 100 kt,
at the query point itself. -/
def trackOne : List StormObs := [⟨"A", 0, 0, 100, 2000⟩]

/-- Engine holding only trackOne, with the query point at distance 0
from the observation. -/
def procOne : Processor := ⟨fun _ _ _ _ => 0, id, some trackOne, [], []⟩

/-- Same engine as procOne with the observation redated to 1900. -/
def procOneRedated : Processor :=
  ⟨fun _ _ _ _ => 0, id, some [⟨"A", 0, 0, 100, 1900⟩], [], []⟩

/-- A 3 by 3 gridded dataset whose center cell is fully masked and
whose eight neighbors all hold the value 30. -/
def dsInterp : HadDataset :=
  ⟨[0, 1, 2], [0, 1, 2], 2, fun _ i j => if i = 1 ∧ j = 1 then none else some 30⟩

/-- Engine holding only the txx index dsInterp, all grid distances 1. -/
def procInterp : Processor := ⟨fun _ _ _ _ => 1, id, none, [], [("txx", dsInterp)]⟩

/-- As dsInterp but the neighbors hold 100, a value outside the heat
estimator's valid temperature range. -/
def dsInterpHot : HadDataset :=
  ⟨[0, 1, 2], [0, 1, 2], 2, fun _ i j => if i = 1 ∧ j = 1 then none else some 100⟩

/-- Engine holding only the txx index dsInterpHot. -/
def procInterpHot : Processor :=
  ⟨fun _ _ _ _ => 1, id, none, [], [("txx", dsInterpHot)]⟩

/-- Engine holding one flood lookup entry at (10, 10) of depth 5. -/
def procFlood : Processor := ⟨fun _ _ _ _ => 0, id, none, [((10, 10), 5)], []⟩

/-!  Shared helper lemmas. -/

/-- The wood-frame curve never exceeds its cap 1.0. -/
theorem wf_damage_le_one (w : ℚ) : wf_damage w ≤ 1 := by
  unfold wf_damage
  split_ifs <;> first
    | linarith
    | exact le_trans (min_le_right _ _) (by norm_num)

/-- The concrete curve never exceeds its cap 0.70. -/
theorem concrete_damage_le_cap (w : ℚ) : concrete_damage w ≤ 0.70 := by
  unfold concrete_damage
  split_ifs <;> first
    | linarith
    | exact min_le_right _ _

/-- The concrete curve is non-decreasing. -/
theorem concrete_damage_mono (w1 w2 : ℚ) (h : w1 ≤ w2) :
    concrete_damage w1 ≤ concrete_damage w2 := by
  unfold concrete_damage
  split_ifs <;> first
    | linarith
    | (rw [le_min_iff]; constructor <;> linarith)
    | exact min_le_min (by linarith) le_rfl

/-- The wood-frame curve is non-decreasing from 95 mph on. -/
theorem wf_damage_mono95 (w1 w2 : ℚ) (h95 : 95 ≤ w1) (h : w1 ≤ w2) :
    wf_damage w1 ≤ wf_damage w2 := by
  unfold wf_damage
  split_ifs <;> first
    | linarith
    | (rw [le_min_iff]; constructor <;> linarith)
    | exact min_le_min (by linarith) le_rfl

/-- The present value loop is exactly the sum of the escalated,
discounted yearly losses over years 1..horizon. -/
theorem presentValue_eq_sum (total esc disc : ℚ) (n : ℕ) :
    presentValue total esc disc n =
      ∑ y ∈ Finset.Icc 1 n, total * (1 + esc) ^ y / (1 + disc) ^ y := by
  induction n with
  | zero => simp [presentValue]
  | succ n ih =>
    rw [presentValue, List.range_succ, List.foldl_append]
    rw [Finset.sum_Icc_succ_top (Nat.le_add_left 1 n)]
    simp only [List.foldl]
    rw [← presentValue, ih]

/-!  C1: wind damage curve. -/

/-- C1 counterexample: the claim says the wind-to-damage function is
continuous and non-decreasing in wind speed for both building types.
It is neither: the wood-frame value drops from 0.15032 at 94.9 mph to
0.15 at 95 mph, and both curves jump from 0 just below 74 mph to 0.05
(wood frame) and 0.02 (concrete) at 74 mph. -/
theorem wind_damage_not_monotone_or_continuous :
    wind_to_damage_hazus 95 "wood_frame" < wind_to_damage_hazus 94.9 "wood_frame" ∧
    wind_to_damage_hazus 74 "wood_frame" = 0.05 ∧
    wind_to_damage_hazus 74 "concrete" = 0.02 := by
  have hc : wind_to_damage_hazus 74 "concrete" = concrete_damage 74 := by
    unfold wind_to_damage_hazus
    rw [if_neg (by decide), if_pos rfl]
  refine ⟨?_, ?_, ?_⟩
  · norm_num [wind_to_damage_hazus, wf_damage]
  · norm_num [wind_to_damage_hazus, wf_damage]
  · rw [hc]; norm_num [concrete_damage]

/-- C1 (amended): the wind-to-damage function returns exactly 0 for
every wind below 74 mph and is bounded by 1.0 for every building type
and by 0.70 for concrete; the concrete curve is non-decreasing
everywhere and the wood-frame curve is non-decreasing from 95 mph on.
(It is not globally continuous or non-decreasing: both curves jump at
74 mph and the wood-frame curve drops across the 95 mph breakpoint.) -/
theorem wind_damage_amended (w w1 w2 : ℚ) (building_type : String) :
    (w < 74 → wind_to_damage_hazus w building_type = 0) ∧
    wind_to_damage_hazus w building_type ≤ 1 ∧
    (building_type = "concrete" → wind_to_damage_hazus w building_type ≤ 0.70) ∧
    (w1 ≤ w2 → wind_to_damage_hazus w1 "concrete" ≤ wind_to_damage_hazus w2 "concrete") ∧
    (95 ≤ w1 → w1 ≤ w2 →
      wind_to_damage_hazus w1 "wood_frame" ≤ wind_to_damage_hazus w2 "wood_frame") := by
  refine ⟨?_, ?_, ?_, ?_, ?_⟩
  · intro hw
    unfold wind_to_damage_hazus wf_damage concrete_damage
    split_ifs <;> linarith
  · unfold wind_to_damage_hazus
    split_ifs <;>
      first
        | exact wf_damage_le_one w
        | exact le_trans (concrete_damage_le_cap w) (by norm_num)
  · intro hbt
    unfold wind_to_damage_hazus
    rw [if_neg (by rw [hbt]; decide), if_pos hbt]
    exact concrete_damage_le_cap w
  · intro h12
    unfold wind_to_damage_hazus
    norm_num
    exact concrete_damage_mono w1 w2 h12
  · intro h95 h12
    unfold wind_to_damage_hazus
    norm_num
    exact wf_damage_mono95 w1 w2 h95 h12

/-- C1 witness: the amended theorem instantiated at concrete winds 50,
100 and 120 and building types concrete, wood frame and an unknown
type. -/
theorem wind_damage_amended_witness :
    wind_to_damage_hazus 50 "concrete" = 0 ∧
    wind_to_damage_hazus 100 "suburban" ≤ 1 ∧
    wind_to_damage_hazus 100 "concrete" ≤ 0.70 ∧
    wind_to_damage_hazus 100 "concrete" ≤ wind_to_damage_hazus 120 "concrete" ∧
    wind_to_damage_hazus 100 "wood_frame" ≤ wind_to_damage_hazus 120 "wood_frame" :=
  ⟨(wind_damage_amended 50 0 0 "concrete").1 (by norm_num),
   (wind_damage_amended 100 0 0 "suburban").2.1,
   (wind_damage_amended 100 0 0 "concrete").2.2.1 rfl,
   (wind_damage_amended 0 100 120 "x").2.2.2.1 (by norm_num),
   (wind_damage_amended 0 100 120 "x").2.2.2.2 (by norm_num) (by norm_num)⟩

/-!  C2: flood lookup quantization. -/

/-- C2 counterexample: 11.8 and 12.2 both quantize to the 12.0 grid
latitude, yet against a table holding only the cell (10, 10) at depth
5 the query at latitude 11.8 returns 5 (the entry is 1.8 degrees away)
while the query at 12.2 returns 0 (2.2 degrees away, beyond the 2
degree fallback radius): the fallback scan measures from the unrounded
coordinate. -/
theorem query_flood_depth_not_cellwise_constant :
    pyround (11.8 * 2) = pyround (12.2 * 2) ∧
    query_flood_depth [((10, 10), 5)] 11.8 10 = 5 ∧
    query_flood_depth [((10, 10), 5)] 12.2 10 = 0 := by
  refine ⟨?_, ?_, ?_⟩ <;>
    norm_num [query_flood_depth, pyround, closer, List.find?]

/-- C2 (amended): two coordinates whose latitudes and longitudes round
to the same 0.5 degree cell receive the identical depth whenever that
cell's key is present in the lookup table (the exact-match path).
When the key is absent, the nearest-entry fallback measures distance
from the unrounded coordinates and the two queries can differ. -/
theorem query_flood_depth_cellwise_on_hit (table : FloodTable)
    (lat1 lon1 lat2 lon2 : ℚ)
    (hlat : pyround (lat1 * 2) = pyround (lat2 * 2))
    (hlon : pyround (lon1 * 2) = pyround (lon2 * 2))
    (hkey : (table.find? (fun e => decide (e.1.1 = (pyround (lat1 * 2) : ℤ) / (2:ℚ) ∧
        e.1.2 = (pyround (lon1 * 2) : ℤ) / (2:ℚ)))).isSome) :
    query_flood_depth table lat1 lon1 = query_flood_depth table lat2 lon2 := by
  obtain ⟨e, he⟩ := Option.isSome_iff_exists.mp hkey
  rw [hlat, hlon] at he
  simp only [query_flood_depth]
  rw [hlat, hlon, he]

/-- C2 witness: both (11.9, 10.1) and (12.1, 9.9) round to the cell
(12.0, 10.0), which is present in the table, so the amended theorem
applies and both queries return its depth. -/
theorem query_flood_depth_cellwise_on_hit_witness :
    query_flood_depth [((12, 10), 3)] 11.9 10.1 =
      query_flood_depth [((12, 10), 3)] 12.1 9.9 :=
  query_flood_depth_cellwise_on_hit [((12, 10), 3)] 11.9 10.1 12.1 9.9
    (by norm_num [pyround]) (by norm_num [pyround])
    (by norm_num [List.find?, pyround])

/-!  C3: present value at the reference parameters. -/

/-- C3 counterexample: at total 1000, escalation 0.02, discount 0.10
and horizon 30 the present value is between 11426 and 11427, about
11,427 — not approximately 9,506 as the claim states (the difference
exceeds 1900). -/
theorem presentValue_reference_not_9506 :
    1900 < |presentValue 1000 0.02 0.10 30 - 9506| := by
  rw [abs_of_nonneg (by norm_num [presentValue, List.range_succ])]
  norm_num [presentValue, List.range_succ]

/-- C3 (amended): at total 1000, escalation 0.02, discount 0.10 and
horizon 30 the year-by-year loop equals the closed-form
geometric-growth-annuity sum over years 1..30 exactly, and that value
lies between 11426 and 11427 (about 11,427, not 9,506). -/
theorem presentValue_reference_closed_form :
    presentValue 1000 0.02 0.10 30 =
      ∑ y ∈ Finset.Icc 1 30, 1000 * (1 + 0.02 : ℚ) ^ y / (1 + 0.10) ^ y ∧
    11426 < presentValue 1000 0.02 0.10 30 ∧
    presentValue 1000 0.02 0.10 30 < 11427 :=
  ⟨presentValue_eq_sum 1000 0.02 0.10 30,
   by norm_num [presentValue, List.range_succ],
   by norm_num [presentValue, List.range_succ]⟩

/-!  C4: aggregation invariant of the comprehensive assessment. -/

/-- C4: for every engine state, coordinate, asset value, building type
and horizon, the comprehensive assessment's expected annual loss is
the sum of the annual losses of the five hazard estimates of its risk
breakdown (every estimator branch populates annual_loss, so no
missing-field default is ever exercised), and its 30-year present
value is the fixed present value function of that total with the fixed
escalation rate 0.02 and discount rate 0.10. -/
theorem comprehensive_risk_invariant (proc : Processor) (lat lon asset_value : ℚ)
    (building_type : String) (time_horizon : ℕ) :
    (calculate_comprehensive_risk proc lat lon asset_value building_type
        time_horizon).expected_annual_loss =
      (calculate_comprehensive_risk proc lat lon asset_value building_type
        time_horizon).hurricane.annual_loss +
      (calculate_comprehensive_risk proc lat lon asset_value building_type
        time_horizon).flood.annual_loss +
      (calculate_comprehensive_risk proc lat lon asset_value building_type
        time_horizon).heat_stress.annual_loss +
      (calculate_comprehensive_risk proc lat lon asset_value building_type
        time_horizon).drought.annual_loss +
      (calculate_comprehensive_risk proc lat lon asset_value building_type
        time_horizon).extreme_precipitation.annual_loss ∧
    (calculate_comprehensive_risk proc lat lon asset_value building_type
        time_horizon).present_value_30yr =
      presentValue
        (calculate_comprehensive_risk proc lat lon asset_value building_type
          time_horizon).expected_annual_loss 0.02 0.10 time_horizon :=
  ⟨rfl, rfl⟩

/-!  C10: flood estimator confidence. -/

/-- C10: on the non-error path the flood estimator returns exactly the
zero-loss Low Risk estimate when the resolved depth is nonpositive,
and confidence High whenever the resolved depth is positive — the
depth resolution (exact cell hit or nearest-entry fallback) is never
reflected in the confidence tag, which depends only on the sign of the
resolved depth. -/
theorem flood_confidence_two_valued (proc : Processor) (lat lon asset_value : ℚ)
    (building_type : String) :
    (query_flood_depth proc.flood_lookup lat lon ≤ 0 →
      calculate_flood_risk proc lat lon asset_value building_type =
        ⟨0, some 0, Confidence.lowRisk⟩) ∧
    (0 < query_flood_depth proc.flood_lookup lat lon →
      (calculate_flood_risk proc lat lon asset_value building_type).confidence =
        Confidence.high) := by
  constructor
  · intro h
    unfold calculate_flood_risk
    rw [if_pos h]
  · intro h
    unfold calculate_flood_risk
    rw [if_neg (not_le.mpr h)]

/-- C10 witness: a table whose only entry is the cell (10, 10) at
depth 5, queried at (11.8, 10): the quantized key (12.0, 10.0) is
absent, the depth 5 comes from the nearest-entry fallback, and the
confidence is still High. -/
theorem flood_confidence_two_valued_witness :
    (calculate_flood_risk procFlood 11.8 10 1000000 "residential").confidence =
      Confidence.high :=
  (flood_confidence_two_valued procFlood 11.8 10 1000000 "residential").2
    (by norm_num [procFlood, query_flood_depth, pyround, closer, List.find?])

/-!  C5: storm deduplication. -/

/-- Helper: folding the per-observation loop over a track whose
observations all share storm id s, all lie within the cutoff and all
keep damaging decayed winds, starting from a one-entry table for s,
keeps a one-entry table holding the running maximum damage. -/
theorem stormMaxDamage_single_aux (dist : ℚ → ℚ → ℚ → ℚ → ℚ) (sqrtQ : ℚ → ℚ)
    (qlat qlon : ℚ) (building_type s : String) :
    ∀ (track : List StormObs) (v : ℚ),
      (∀ o ∈ track, o.sid = s) →
      (∀ o ∈ track, ¬ dist qlat qlon o.lat o.lon > 200) →
      (∀ o ∈ track, ¬ effWindMph sqrtQ (dist qlat qlon o.lat o.lon) o.wind < 74) →
      track.foldl (hurricaneStep dist sqrtQ qlat qlon building_type) [(s, v)] =
        [(s, track.foldl (fun a o =>
          max a (wind_to_damage_hazus
            (effWindMph sqrtQ (dist qlat qlon o.lat o.lon) o.wind) building_type)) v)] := by
  intro track
  induction track with
  | nil => intro v _ _ _; rfl
  | cons o rest ih =>
    intro v hsid hd hw
    have hstep : hurricaneStep dist sqrtQ qlat qlon building_type [(s, v)] o =
        [(s, max v (wind_to_damage_hazus
          (effWindMph sqrtQ (dist qlat qlon o.lat o.lon) o.wind) building_type))] := by
      unfold hurricaneStep
      rw [if_neg (hd o (List.mem_cons_self o rest)),
        if_neg (hw o (List.mem_cons_self o rest))]
      unfold updateMax
      rw [if_pos (hsid o (List.mem_cons_self o rest)).symm]
    rw [List.foldl_cons, hstep,
      ih _ (fun x hx => hsid x (List.mem_cons_of_mem o hx))
        (fun x hx => hd x (List.mem_cons_of_mem o hx))
        (fun x hx => hw x (List.mem_cons_of_mem o hx))]
    rfl

/-- C5: a nonempty synthetic track whose observations all share one
storm id, all lie within the 200 km cutoff, and all keep decayed
effective winds at or above the 74 mph damage threshold, yields a
storm table counting exactly 1 distinct damaging storm, whose recorded
damage ratio is the pointwise maximum of the per-observation damage
ratios (the fold starts from the defaultdict zero, below every
damaging ratio). -/
theorem storm_dedup_single_storm (dist : ℚ → ℚ → ℚ → ℚ → ℚ) (sqrtQ : ℚ → ℚ)
    (qlat qlon : ℚ) (building_type s : String) (track : List StormObs)
    (hne : track ≠ [])
    (hsid : ∀ o ∈ track, o.sid = s)
    (hd : ∀ o ∈ track, ¬ dist qlat qlon o.lat o.lon > 200)
    (hw : ∀ o ∈ track, ¬ effWindMph sqrtQ (dist qlat qlon o.lat o.lon) o.wind < 74) :
    (stormMaxDamage dist sqrtQ qlat qlon building_type track).length = 1 ∧
    stormMaxDamage dist sqrtQ qlat qlon building_type track =
      [(s, track.foldl (fun a o =>
        max a (wind_to_damage_hazus
          (effWindMph sqrtQ (dist qlat qlon o.lat o.lon) o.wind) building_type)) 0)] := by
  match track, hne with
  | o :: rest, _ =>
    have hstep : hurricaneStep dist sqrtQ qlat qlon building_type [] o =
        [(o.sid, max 0 (wind_to_damage_hazus
          (effWindMph sqrtQ (dist qlat qlon o.lat o.lon) o.wind) building_type))] := by
      unfold hurricaneStep
      rw [if_neg (hd o (List.mem_cons_self o rest)),
        if_neg (hw o (List.mem_cons_self o rest))]
      rfl
    have hmain : stormMaxDamage dist sqrtQ qlat qlon building_type (o :: rest) =
        [(s, (o :: rest).foldl (fun a x =>
          max a (wind_to_damage_hazus
            (effWindMph sqrtQ (dist qlat qlon x.lat x.lon) x.wind) building_type)) 0)] := by
      unfold stormMaxDamage
      rw [List.foldl_cons, hstep, hsid o (List.mem_cons_self o rest)]
      exact stormMaxDamage_single_aux dist sqrtQ qlat qlon building_type s rest _
        (fun x hx => hsid x (List.mem_cons_of_mem o hx))
        (fun x hx => hd x (List.mem_cons_of_mem o hx))
        (fun x hx => hw x (List.mem_cons_of_mem o hx))
    exact ⟨by rw [hmain]; rfl, hmain⟩

/-- C5 witness: two observations of storm S1 at the query point (winds
100 kt and 120 kt, zero distance, trivial square root id), giving one
table entry holding the larger damage ratio. -/
theorem storm_dedup_single_storm_witness :
    (stormMaxDamage (fun _ _ _ _ => 0) id 0 0 "wood_frame"
      [⟨"S1", 0, 0, 100, 2000⟩, ⟨"S1", 0, 0, 120, 2000⟩]).length = 1 ∧
    stormMaxDamage (fun _ _ _ _ => 0) id 0 0 "wood_frame"
      [⟨"S1", 0, 0, 100, 2000⟩, ⟨"S1", 0, 0, 120, 2000⟩] =
      [("S1", [(⟨"S1", 0, 0, 100, 2000⟩ : StormObs),
        ⟨"S1", 0, 0, 120, 2000⟩].foldl (fun a o =>
          max a (wind_to_damage_hazus
            (effWindMph id ((fun _ _ _ _ => (0:ℚ)) 0 0 o.lat o.lon) o.wind)
            "wood_frame")) 0)] :=
  storm_dedup_single_storm (fun _ _ _ _ => 0) id 0 0 "wood_frame" "S1"
    [⟨"S1", 0, 0, 100, 2000⟩, ⟨"S1", 0, 0, 120, 2000⟩]
    (by decide)
    (by intro o ho; fin_cases ho <;> rfl)
    (by intro o ho; fin_cases ho <;>
      norm_num [effWindMph, decayFactor])
    (by intro o ho; fin_cases ho <;>
      norm_num [effWindMph, decayFactor])

/-!  C6: hurricane distance processing. -/

/-- C6: (1) an observation farther than the 200 km cutoff leaves the
storm table unchanged, contributing no damage; (2) an observation
within the cutoff whose decayed effective wind is below 74 mph leaves
the table unchanged; (3) for a monotone square root, the wind decay
factor is non-increasing in distance on [0, 200]; (4) for a square
root vanishing at 0, the decay factor is exactly 0 at the 200 km
cutoff. -/
theorem hurricane_distance_processing (dist : ℚ → ℚ → ℚ → ℚ → ℚ) (sqrtQ : ℚ → ℚ)
    (qlat qlon : ℚ) (building_type : String) :
    (∀ (m : List (String × ℚ)) (obs : StormObs),
      dist qlat qlon obs.lat obs.lon > 200 →
      hurricaneStep dist sqrtQ qlat qlon building_type m obs = m) ∧
    (∀ (m : List (String × ℚ)) (obs : StormObs),
      ¬ dist qlat qlon obs.lat obs.lon > 200 →
      effWindMph sqrtQ (dist qlat qlon obs.lat obs.lon) obs.wind < 74 →
      hurricaneStep dist sqrtQ qlat qlon building_type m obs = m) ∧
    (Monotone sqrtQ → ∀ d1 d2 : ℚ, 0 ≤ d1 → d1 ≤ d2 → d2 ≤ 200 →
      decayFactor sqrtQ d2 ≤ decayFactor sqrtQ d1) ∧
    (sqrtQ 0 = 0 → decayFactor sqrtQ 200 = 0) := by
  refine ⟨?_, ?_, ?_, ?_⟩
  · intro m obs h
    unfold hurricaneStep
    rw [if_pos h]
  · intro m obs h1 h2
    unfold hurricaneStep
    rw [if_neg h1, if_pos h2]
  · intro hmono d1 d2 _ h12 _
    unfold decayFactor
    exact max_le_max le_rfl (hmono (by linarith))
  · intro h0
    unfold decayFactor
    norm_num [h0]

/-- C6 witness: the four parts instantiated concretely — an
observation at distance 300 is dropped; an observation at distance 100
with wind 10 kt decays below 74 mph and is dropped; with the identity
as square root the decay factor at 200 km is at most the decay factor
at 0 km and equals 0 at the cutoff. -/
theorem hurricane_distance_processing_witness :
    hurricaneStep (fun _ _ _ _ => 300) id 0 0 "wood_frame" []
      ⟨"A", 1, 1, 100, 2000⟩ = [] ∧
    hurricaneStep (fun _ _ _ _ => 100) id 0 0 "wood_frame" []
      ⟨"A", 1, 1, 10, 2000⟩ = [] ∧
    decayFactor id 200 ≤ decayFactor id 0 ∧
    decayFactor id 200 = 0 := by
  have h300 := hurricane_distance_processing (fun _ _ _ _ => 300) id 0 0 "wood_frame"
  have h100 := hurricane_distance_processing (fun _ _ _ _ => 100) id 0 0 "wood_frame"
  refine ⟨h300.1 [] ⟨"A", 1, 1, 100, 2000⟩ (by norm_num),
    h100.2.1 [] ⟨"A", 1, 1, 10, 2000⟩ (by norm_num) ?_,
    h100.2.2.1 monotone_id 0 200 le_rfl (by norm_num) le_rfl,
    h100.2.2.2 rfl⟩
  norm_num [effWindMph, decayFactor, max_def]

/-!  C7: annual storm frequency. -/

/-- Helper: the storm table ignores observation timestamps — redating
every observation leaves it unchanged. -/
theorem stormMaxDamage_redate (dist : ℚ → ℚ → ℚ → ℚ → ℚ) (sqrtQ : ℚ → ℚ)
    (qlat qlon : ℚ) (building_type : String) (retime : StormObs → ℤ) :
    ∀ (track : List StormObs) (init : List (String × ℚ)),
      (track.map (fun o => StormObs.mk o.sid o.lat o.lon o.wind (retime o))).foldl
        (hurricaneStep dist sqrtQ qlat qlon building_type) init =
      track.foldl (hurricaneStep dist sqrtQ qlat qlon building_type) init := by
  intro track
  induction track with
  | nil => intro init; rfl
  | cons o rest ih =>
    intro init
    rw [List.map_cons, List.foldl_cons, List.foldl_cons]
    exact ih (hurricaneStep dist sqrtQ qlat qlon building_type init o)

/-- C7 counterexample: a record holding a single damaging storm whose
observations all carry the year 2000 — a record spanning one year.
The computed annual loss is 1543.432, which is the value obtained by
dividing the storm count by the hardcoded 50, and differs from the
value (1/1) x 0.35078 x 1000000 x 0.22 = 77171.6 that the claimed
span-derived frequency (1 storm in a 1-year record) would produce. -/
theorem hurricane_frequency_not_span_derived :
    (∀ o ∈ trackOne, o.year = 2000) ∧
    (calculate_hurricane_risk procOne 0 0 1000000 "wood_frame").annual_loss =
      1 / 50 * 0.35078 * 1000000 * 0.22 ∧
    (calculate_hurricane_risk procOne 0 0 1000000 "wood_frame").annual_loss ≠
      1 / 1 * 0.35078 * 1000000 * 0.22 := by
  refine ⟨by decide, ?_, ?_⟩ <;>
    norm_num [calculate_hurricane_risk, procOne, trackOne, stormMaxDamage,
      hurricaneStep, updateMax, effWindMph, decayFactor, max_def,
      wind_to_damage_hazus, wf_damage]

/-- C7 (amended): the annual frequency used by the hurricane estimator
is the count of distinct damaging storms divided by the constant 50
(the assumed 1974-2024 record length): for every record with at least
one damaging storm the annual loss equals
(count / 50) x mean-of-max-damages x asset value x 0.22, and the
estimate is invariant under arbitrarily redating every observation —
the record's actual time span is never consulted. -/
theorem hurricane_frequency_amended (proc proc2 : Processor)
    (track : List StormObs) (lat lon asset_value : ℚ) (building_type : String)
    (retime : StormObs → ℤ)
    (hdata : proc.hurricane_data = some track)
    (hdist : proc2.dist = proc.dist) (hsqrt : proc2.sqrtQ = proc.sqrtQ)
    (hdata2 : proc2.hurricane_data =
      some (track.map (fun o => StormObs.mk o.sid o.lat o.lon o.wind (retime o)))) :
    ((stormMaxDamage proc.dist proc.sqrtQ lat lon building_type track).length ≠ 0 →
      (calculate_hurricane_risk proc lat lon asset_value building_type).annual_loss =
        ((stormMaxDamage proc.dist proc.sqrtQ lat lon building_type track).length : ℚ)
            / 50 *
          (((stormMaxDamage proc.dist proc.sqrtQ lat lon building_type track).map
              Prod.snd).sum /
            ((stormMaxDamage proc.dist proc.sqrtQ lat lon building_type
              track).length : ℚ)) *
          asset_value * 0.22) ∧
    calculate_hurricane_risk proc2 lat lon asset_value building_type =
      calculate_hurricane_risk proc lat lon asset_value building_type := by
  constructor
  · intro hnum
    unfold calculate_hurricane_risk
    rw [hdata]
    dsimp only
    rw [if_neg hnum]
  · unfold calculate_hurricane_risk
    rw [hdata, hdata2, hdist, hsqrt]
    dsimp only
    unfold stormMaxDamage
    rw [stormMaxDamage_redate]

/-- C7 witness: the amended theorem applied to the one-storm record of
the counterexample scenario and its redated copy. -/
theorem hurricane_frequency_amended_witness :
    (calculate_hurricane_risk procOne 0 0 1000000 "wood_frame").annual_loss =
      ((stormMaxDamage procOne.dist procOne.sqrtQ 0 0 "wood_frame"
          trackOne).length : ℚ) / 50 *
        (((stormMaxDamage procOne.dist procOne.sqrtQ 0 0 "wood_frame"
            trackOne).map Prod.snd).sum /
          ((stormMaxDamage procOne.dist procOne.sqrtQ 0 0 "wood_frame"
            trackOne).length : ℚ)) * 1000000 * 0.22 ∧
    calculate_hurricane_risk procOneRedated 0 0 1000000 "wood_frame" =
      calculate_hurricane_risk procOne 0 0 1000000 "wood_frame" := by
  have h := hurricane_frequency_amended procOne procOneRedated trackOne 0 0
    1000000 "wood_frame" (fun _ => 1900) rfl rfl rfl rfl
  refine ⟨h.1 ?_, h.2⟩
  norm_num [stormMaxDamage, procOne, trackOne, hurricaneStep, updateMax,
    effWindMph, decayFactor, max_def]

/-!  C8: latitude validation. -/

/-- C8 counterexample: the claim says every request path that triggers
hazard computation rejects an out-of-range latitude.  The
/assess/risk_type path performs no range validation: a flood request
at latitude 95 (against an engine with an empty flood table) is
answered with a successful Low Risk estimate, not an error. -/
theorem specific_risk_path_not_validated :
    assess_specific_risk procEmpty "flood" ⟨some 95, some 0, none, none⟩ =
      Except.ok ⟨0, some 0, Confidence.lowRisk⟩ := by
  unfold assess_specific_risk
  dsimp only
  rw [if_neg (by decide), if_pos rfl]
  norm_num [calculate_flood_risk, query_flood_depth, procEmpty, pyround,
    closer, List.find?]

/-- C8 (amended): on the comprehensive /assess path, a request whose
latitude is present but outside [-90, 90] is answered with an error,
and the response does not depend on the engine state — no hazard
estimator output can influence it.  The /assess/risk_type path
performs no such validation. -/
theorem assess_rejects_bad_latitude (proc proc2 : Processor) (data : AssessData)
    (lat : ℚ) (hlat : data.latitude = some lat)
    (hout : ¬ (-90 ≤ lat ∧ lat ≤ 90)) :
    (∃ e, assess_risk proc data = Except.error e) ∧
    assess_risk proc data = assess_risk proc2 data := by
  cases hlon : data.longitude with
  | none =>
    unfold assess_risk
    rw [hlat, hlon]
    exact ⟨⟨_, rfl⟩, rfl⟩
  | some lon =>
    unfold assess_risk
    rw [hlat, hlon]
    dsimp only
    simp only [if_pos hout]
    exact ⟨⟨_, rfl⟩, trivial⟩

/-- C8 witness: a latitude-95 request on the /assess path is an error
for the empty engine, identically for any second engine (here the
flood-table engine). -/
theorem assess_rejects_bad_latitude_witness :
    (∃ e, assess_risk procEmpty ⟨some 95, some 0, none, none⟩ = Except.error e) ∧
    assess_risk procEmpty ⟨some 95, some 0, none, none⟩ =
      assess_risk procFlood ⟨some 95, some 0, none, none⟩ :=
  assess_rejects_bad_latitude procEmpty procFlood ⟨some 95, some 0, none, none⟩
    95 rfl (by norm_num)

/-!  C9: spatial resolver fallback ordering. -/

/-- C9 counterexample: with a dataset whose center cell is fully
masked and whose eight valid neighbors hold 100 (a value outside the
heat estimator's valid temperature filter (-90, 60)), the resolver
does return the interpolated series, but the consuming estimator
filters every interpolated value out and falls back to the regional
baseline scalar, reporting confidence Regional Baseline rather than a
data-derived confidence — refuting the claim's estimator clause. -/
theorem resolver_interpolates_but_estimator_uses_baseline :
    extract_hadex3_timeseries procInterpHot "txx" 1 1 =
      some [some 100, some 100] ∧
    ¬ (((List.range dsInterpHot.nt).map (fun t =>
        dsInterpHot.val t (argminAbsIdx dsInterpHot.lats 1)
          (argminAbsIdx dsInterpHot.lons 1))).length ≠ 0 ∧
      2 * countValid ((List.range dsInterpHot.nt).map (fun t =>
        dsInterpHot.val t (argminAbsIdx dsInterpHot.lats 1)
          (argminAbsIdx dsInterpHot.lons 1))) ≥
      ((List.range dsInterpHot.nt).map (fun t =>
        dsInterpHot.val t (argminAbsIdx dsInterpHot.lats 1)
          (argminAbsIdx dsInterpHot.lons 1))).length) ∧
    3 ≤ (validNeighbors procInterpHot.dist dsInterpHot 1 1
      (argminAbsIdx dsInterpHot.lats 1) (argminAbsIdx dsInterpHot.lons 1)).length ∧
    (calculate_heat_stress_risk procInterpHot 1 1 1000000).confidence =
      Confidence.regionalBaseline := by
  refine ⟨?_, ?_, ?_, ?_⟩
  · norm_num [extract_hadex3_timeseries, lookupIndex, procInterpHot,
      List.find?, argminAbsIdx, argminAux, dsInterpHot]
    simp [interpolate_from_neighbors, validNeighbors, dsInterpHot, countValid,
      List.range_succ, List.filterMap]
    norm_num
  · norm_num [argminAbsIdx, argminAux, dsInterpHot, countValid, List.range_succ]
  · norm_num [argminAbsIdx, argminAux, dsInterpHot, procInterpHot]
    simp [validNeighbors, dsInterpHot, countValid, List.range_succ,
      List.filterMap]
  · norm_num [calculate_heat_stress_risk, extract_hadex3_timeseries,
      lookupIndex, procInterpHot, List.find?, argminAbsIdx, argminAux,
      dsInterpHot]
    simp [interpolate_from_neighbors, validNeighbors, dsInterpHot, countValid,
      List.range_succ, List.filterMap, heatFinish, get_regional_baseline,
      baselineKey, regional_baselines, regionValue, List.find?]
    norm_num

/-- C9 (amended): when the txx index is loaded and the nearest cell's
series fails the 50 percent validity check while at least 3 of the 8
neighbor cells pass it, the extraction returns exactly the
distance-weighted interpolation result (which is some series, never
the regional baseline); and if the interpolated series moreover
contains at least one value surviving the heat estimator's validity
filter (-90, 60), the heat estimator reports the data-derived
confidence Medium rather than Regional Baseline. -/
theorem resolver_fallback_ordering_amended (proc : Processor) (ds : HadDataset)
    (lat lon asset_value : ℚ)
    (hfind : lookupIndex proc "txx" = some ds)
    (hcenter : ¬ (((List.range ds.nt).map (fun t =>
        ds.val t (argminAbsIdx ds.lats lat) (argminAbsIdx ds.lons lon))).length ≠ 0 ∧
      2 * countValid ((List.range ds.nt).map (fun t =>
        ds.val t (argminAbsIdx ds.lats lat) (argminAbsIdx ds.lons lon))) ≥
      ((List.range ds.nt).map (fun t =>
        ds.val t (argminAbsIdx ds.lats lat) (argminAbsIdx ds.lons lon))).length))
    (hnbrs : ¬ (validNeighbors proc.dist ds lat lon (argminAbsIdx ds.lats lat)
      (argminAbsIdx ds.lons lon)).length < 3) :
    extract_hadex3_timeseries proc "txx" lat lon =
      interpolate_from_neighbors proc.dist ds lat lon
        (argminAbsIdx ds.lats lat) (argminAbsIdx ds.lons lon) ∧
    (interpolate_from_neighbors proc.dist ds lat lon
      (argminAbsIdx ds.lats lat) (argminAbsIdx ds.lons lon)).isSome = true ∧
    (∀ interp,
      interpolate_from_neighbors proc.dist ds lat lon
        (argminAbsIdx ds.lats lat) (argminAbsIdx ds.lons lon) = some interp →
      ((interp.filterMap id).filter
        (fun v => decide (-90 < v ∧ v < 60))).length ≠ 0 →
      (calculate_heat_stress_risk proc lat lon asset_value).confidence =
        Confidence.medium) := by
  have hextract : extract_hadex3_timeseries proc "txx" lat lon =
      interpolate_from_neighbors proc.dist ds lat lon
        (argminAbsIdx ds.lats lat) (argminAbsIdx ds.lons lon) := by
    unfold extract_hadex3_timeseries
    rw [hfind]
    dsimp only
    rw [if_neg hcenter]
  have hsome : (interpolate_from_neighbors proc.dist ds lat lon
      (argminAbsIdx ds.lats lat) (argminAbsIdx ds.lons lon)).isSome = true := by
    unfold interpolate_from_neighbors
    dsimp only
    rw [if_neg hnbrs]
    rfl
  refine ⟨hextract, hsome, ?_⟩
  intro interp hinterp hvalid
  have hx : extract_hadex3_timeseries proc "txx" lat lon = some interp :=
    hextract.trans hinterp
  unfold calculate_heat_stress_risk
  rw [hx]
  dsimp only
  rw [if_neg hvalid]
  by_cases h30 : ((interp.filterMap id).filter
      (fun v => decide (-90 < v ∧ v < 60))).length ≥ 30
  · rw [if_pos h30]
    have hdl : (((interp.filterMap id).filter
        (fun v => decide (-90 < v ∧ v < 60))).drop
          (((interp.filterMap id).filter
            (fun v => decide (-90 < v ∧ v < 60))).length - 30)).length ≠ 0 := by
      rw [List.length_drop]
      omega
    rw [if_neg hdl]
    exact rfl
  · rw [if_neg h30, if_neg hvalid]
    exact rfl

/-- C9 witness: the amended theorem applied to the all-masked-center,
eight-valid-neighbors dataset holding 30, whose interpolated series is
[30, 30]: the extraction equals the interpolation result and the heat
confidence is Medium. -/
theorem resolver_fallback_ordering_amended_witness :
    extract_hadex3_timeseries procInterp "txx" 1 1 =
      interpolate_from_neighbors procInterp.dist dsInterp 1 1
        (argminAbsIdx dsInterp.lats 1) (argminAbsIdx dsInterp.lons 1) ∧
    (calculate_heat_stress_risk procInterp 1 1 1000000).confidence =
      Confidence.medium := by
  have h := resolver_fallback_ordering_amended procInterp dsInterp 1 1 1000000
    rfl
    (by norm_num [argminAbsIdx, argminAux, dsInterp, countValid, List.range_succ])
    (by norm_num [argminAbsIdx, argminAux, dsInterp, procInterp]
        simp [validNeighbors, dsInterp, countValid, List.range_succ,
          List.filterMap])
  refine ⟨h.1, h.2.2 [some 30, some 30] ?_ (by norm_num)⟩
  norm_num [argminAbsIdx, argminAux, dsInterp, procInterp]
  simp [interpolate_from_neighbors, validNeighbors, dsInterp, countValid,
    List.range_succ, List.filterMap]
  norm_num

end ClimateRisk
